import Mathlib

/-!
Verification development for the deskthing-mic repository.

The repository streams framed PCM audio from a capture source to an
application.  Two capture backends exist on the client side (a WebSocket
relay to a Go daemon, and a local microphone), and the Go daemon owns a
capture session around an `arecord` subprocess.  This file gives a shallow
embedding of the data model and the operations of:

* the WAV chunk framers (`makeWavChunk` in `src/audioMic.ts`, `wavChunk` in
  `daemon/audio.go`);
* the daemon connection handler and capture session
  (`handleWebSocket` / `StartAudioStream` in the Go sources);
* the client network backend (`AudioWebSocket` in `src/audioWebSocket.ts`,
  found in `src/types.ts` of the source snapshot) and the older
  `AudioManager` (`src/utils/index.ts`) with its reconnect and liveness
  timers, as explicit event-step systems over a pending-timer pool;
* the local capture backend (`AudioMic` in `src/audioMic.ts`) as an
  event-step system, and its Float32 to Int16 sample conversion.

Bytes are modelled as natural numbers (every stored byte is reduced mod 256
by the encoders), JavaScript/Go numeric truncation is written as explicit
`% 2^16` / `% 2^32`, and JavaScript floating point sample values are
modelled as exact rationals (all concrete inputs used below are dyadic
rationals on which the source's float64 arithmetic is exact).
-/

set_option maxHeartbeats 1600000

namespace DeskthingMic


/-- Little-endian byte encoding of a 16-bit field, as stored by
`DataView.setUint16(offset, v, true)` (JS) and `binary.Write(buf,
binary.LittleEndian, uint16(v))` (Go): the value is truncated mod 2^16 and
laid out least-significant byte first. -/
def u16le (v : Nat) : List Nat := [v % 256, v / 256 % 256]

/-- Little-endian byte encoding of a 32-bit field, as stored by
`DataView.setUint32(offset, v, true)` (JS) and `binary.Write(buf,
binary.LittleEndian, uint32(v))` (Go). -/
def u32le (v : Nat) : List Nat :=
  [v % 256, v / 256 % 256, v / 65536 % 256, v / 16777216 % 256]

/-- The `sampleFormat` argument of `AudioMic.makeWavChunk`
(`src/audioMic.ts`): the string union `'int16' | 'float32'`. -/
inductive SampleFormat where
  | int16 : SampleFormat
  | float32 : SampleFormat
deriving DecidableEq

/-- `sampleFormat === 'int16' ? 1 : 3` — the WAV AudioFormat word written at
offset 20 by `makeWavChunk` (1 = integer PCM, 3 = IEEE float). -/
def formatTag : SampleFormat → Nat
  | .int16 => 1
  | .float32 => 3

/-- `AudioMic.makeWavChunk` (`src/audioMic.ts` lines 221-251).  The DataView
writes at offsets 0,4,8,12,16,20,22,24,28,32,34,36,40 tile the 44-byte
header consecutively, so the buffer is the concatenation of the fields in
offset order followed by the payload copied verbatim at offset 44.  The
four-character tags are the ASCII bytes of `'RIFF'`, `'WAVE'`, `'fmt '` and
`'data'` written by `writeString`. -/
def makeWavChunk (pcm : List Nat) (sampleRate channels bytesPerSample : Nat)
    (sampleFormat : SampleFormat) : List Nat :=
  [82, 73, 70, 70]
  ++ u32le (36 + pcm.length)
  ++ [87, 65, 86, 69]
  ++ [102, 109, 116, 32]
  ++ u32le 16
  ++ u16le (formatTag sampleFormat)
  ++ u16le channels
  ++ u32le sampleRate
  ++ u32le (sampleRate * channels * bytesPerSample)
  ++ u16le (channels * bytesPerSample)
  ++ u16le (bytesPerSample * 8)
  ++ [100, 97, 116, 97]
  ++ u32le pcm.length
  ++ pcm

/-- `wavChunk` (`daemon/audio.go` lines 73-97).  Identical layout to
`makeWavChunk` except that the AudioFormat word at offset 20 is the constant
`uint16(1)` (integer PCM): the Go framer has no format-tag parameter. -/
def wavChunk (pcm : List Nat) (sampleRate channels bytesPerSample : Nat) : List Nat :=
  [82, 73, 70, 70]
  ++ u32le (36 + pcm.length)
  ++ [87, 65, 86, 69]
  ++ [102, 109, 116, 32]
  ++ u32le 16
  ++ u16le 1
  ++ u16le channels
  ++ u32le sampleRate
  ++ u32le (sampleRate * channels * bytesPerSample)
  ++ u16le (channels * bytesPerSample)
  ++ u16le (bytesPerSample * 8)
  ++ [100, 97, 116, 97]
  ++ u32le pcm.length
  ++ pcm

/-- Byte of a buffer at an index (0 past the end). -/
def readByte (l : List Nat) (i : Nat) : Nat := l.getD i 0

/-- Decode the little-endian 16-bit field stored at offset `i`. -/
def readU16 (l : List Nat) (i : Nat) : Nat := readByte l i + 256 * readByte l (i + 1)

/-- Decode the little-endian 32-bit field stored at offset `i`. -/
def readU32 (l : List Nat) (i : Nat) : Nat :=
  readByte l i + 256 * readByte l (i + 1) + 65536 * readByte l (i + 2)
    + 16777216 * readByte l (i + 3)

/-- JSON values, as produced by `JSON.parse` on the client and
`json.Marshal` on the daemon.  Numbers are modelled as exact rationals. -/
inductive Json where
  | null : Json
  | bool : Bool → Json
  | num : ℚ → Json
  | str : String → Json
  | arr : List Json → Json
  | obj : List (String × Json) → Json

/-- JavaScript property access `j.k`: `none` models `undefined` (key absent
or receiver not an object). -/
def Json.lookup : Json → String → Option Json
  | .obj fields, k => (fields.find? (fun p => p.1 == k)).map (fun p => p.2)
  | _, _ => none

/-- JavaScript truthiness of a JSON value: `null`, `false`, `0` and the
empty string are falsy; every object and array is truthy. -/
def Json.truthy : Json → Bool
  | .null => false
  | .bool b => b
  | .num q => q != 0
  | .str s => s != ""
  | .arr _ => true
  | .obj _ => true

/-- Readiness of the client WebSocket handle (`this.ws` when non-null):
`WebSocket.CONNECTING` or `WebSocket.OPEN`.  The sources null the handle as
soon as it closes or errors, so no other readiness is observable. -/
inductive WsReady where
  | connecting : WsReady
  | opened : WsReady
deriving DecidableEq

/-- The client-side `MicConfig` as assembled by the `AudioWebSocket` text
branch: each field holds the raw JSON value read from the message (`none`
models `undefined`, i.e. the key was absent). -/
structure JsMicConfig where
  sampleRate : Option Json
  channelCount : Option Json
  bytesPerSample : Option Json
  secondsPerChunk : Option Json

/-- Fields of an `AudioWebSocket` instance (`src/types.ts` snapshot, class
`AudioWebSocket`): the socket handle, the `AudioManagerState` mirror
(`status`, `error`, counters, `micConfig`) and the reconnect-timer id.
`status` and `error` are stored as JSON values because the state-message
branch assigns whatever value the message carried. -/
structure AwsState where
  ws : Option WsReady
  status : Json
  error : Json
  audioChunks : Nat
  bytesReceived : Nat
  micConfig : Option JsMicConfig
  reconnectTimeout : Option Nat

/-- Guard of the text branch (`src/types.ts` line 127):
`msg.type === 'state' && msg.request === 'mic' && msg.payload`. -/
def isMicStateMsg (msg : Json) : Bool :=
  (match msg.lookup "type" with
    | some (Json.str t) => t == "state"
    | _ => false)
  && (match msg.lookup "request" with
    | some (Json.str r) => r == "mic"
    | _ => false)
  && (match msg.lookup "payload" with
    | some p => p.truthy
    | none => false)

/-- The `onmessage` text branch of `AudioWebSocket.connect` (`src/types.ts`
lines 123-145) applied to an already-parsed message: when the guard holds,
`status` becomes `payload.State || this.state.status`, `error` becomes
`payload.Error || ''`, and `micConfig` becomes the translation of
`payload.Config` (keys `SampleRate`, `Channels`, `BytesPerSample`,
`SecondsPerChunk`) when `payload.Config` is truthy, else it is kept. -/
def handleStateText (st : AwsState) (msg : Json) : AwsState :=
  if isMicStateMsg msg then
    let payload := (msg.lookup "payload").getD Json.null
    { st with
      status :=
        (match payload.lookup "State" with
          | some v => if v.truthy then v else st.status
          | none => st.status),
      error :=
        (match payload.lookup "Error" with
          | some v => if v.truthy then v else Json.str ""
          | none => Json.str ""),
      micConfig :=
        (match payload.lookup "Config" with
          | some v =>
            if v.truthy then
              some { sampleRate := v.lookup "SampleRate",
                     channelCount := v.lookup "Channels",
                     bytesPerSample := v.lookup "BytesPerSample",
                     secondsPerChunk := v.lookup "SecondsPerChunk" }
            else st.micConfig
          | none => st.micConfig) }
  else st

/-- The daemon's `MicConfig` (`daemon` Go source, struct `MicConfig` /
`AudioConfig`, identical field sets).  Go `int` fields are modelled as
naturals (every value the daemon is operated with is nonnegative);
`SecondsPerChunk float64` is modelled as an exact rational. -/
structure GoMicConfig where
  sampleRate : Nat
  channels : Nat
  bytesPerSample : Nat
  secondsPerChunk : ℚ
deriving DecidableEq

/-- JSON marshalling of the Go `MicConfig` per its field tags:
`sampleRate`, `channels`, `bytesPerSample`, `secondsPerChunk`
(all lower-case). -/
def goMicConfigJson (cfg : GoMicConfig) : Json :=
  Json.obj [("sampleRate", Json.num cfg.sampleRate),
            ("channels", Json.num cfg.channels),
            ("bytesPerSample", Json.num cfg.bytesPerSample),
            ("secondsPerChunk", Json.num cfg.secondsPerChunk)]

/-- The state message the daemon sends (`broadcastState` and the mirror
blocks in `handleWebSocket`): `{type:"state", request:"mic", payload:
StatePayload}` where `StatePayload` marshals with tags `state`, `config`
and `error,omitempty` (the `error` key is omitted when empty). -/
def daemonStateMsg (micState : String) (cfg : GoMicConfig) (micError : String) : Json :=
  Json.obj [("type", Json.str "state"), ("request", Json.str "mic"),
    ("payload", Json.obj (
      [("state", Json.str micState), ("config", goMicConfigJson cfg)]
      ++ (if micError == "" then [] else [("error", Json.str micError)])))]

/-- A network backend that has connected: status `connected`, empty error,
zero counters, no stored config, no pending reconnect timer. -/
def wsConnectedState : AwsState :=
  { ws := some .opened, status := Json.str "connected", error := Json.str "",
    audioChunks := 0, bytesReceived := 0, micConfig := none,
    reconnectTimeout := none }

/-- Daemon-global mutable state (`handleWebSocket` file): the active session
handle (`audioSession`, session identities as naturals), `currentConfig`,
`micState` and `micError`. -/
structure DaemonState where
  audioSession : Option Nat
  currentConfig : GoMicConfig
  micState : String
  micError : String
deriving DecidableEq

/-- The `mic-listen` case of `handleWebSocket`.  `payload` is `none` when
`len(cmd.Payload) == 0`, `some none` when the payload does not unmarshal,
and `some (some cfg)` when it unmarshals to `cfg`.  `startResult` models
the outcome of `StartAudioStream` (`some h` a new session handle, `none` an
error); it is consulted only on the `audioSession == nil` path.  Note the
source assigns `currentConfig = cfg` before testing `audioSession`. -/
def handleMicListen (s : DaemonState) (payload : Option (Option GoMicConfig))
    (startResult : Option Nat) : DaemonState :=
  match payload with
  | some none => { s with micState := "error", micError := "Invalid config" }
  | _ =>
    let s1 :=
      match payload with
      | some (some cfg) => { s with currentConfig := cfg }
      | _ => s
    match s1.audioSession with
    | none =>
      match startResult with
      | some h => { s1 with audioSession := some h, micState := "listening", micError := "" }
      | none =>
        { s1 with audioSession := none, micState := "error", micError := "Audio start error" }
    | some _ => s1

/-- The `mic-stop` case of `handleWebSocket`: only when a session is active,
stop it and return to idle. -/
def handleMicStop (s : DaemonState) : DaemonState :=
  match s.audioSession with
  | some _ => { s with audioSession := none, micState := "idle", micError := "" }
  | none => s

/-- The `mic-config` case of `handleWebSocket`: refused (plain `continue`)
while a session is active; otherwise an unparseable payload sets the error
state and a parseable one replaces `currentConfig`. -/
def handleMicConfig (s : DaemonState) (payload : Option GoMicConfig) : DaemonState :=
  match s.audioSession with
  | some _ => s
  | none =>
    match payload with
    | none => { s with micState := "error", micError := "Invalid config" }
    | some cfg => { s with currentConfig := cfg }

/-- An arbitrary previously-set daemon config. -/
def cfgOld : GoMicConfig := ⟨48000, 1, 2, 1⟩

/-- A different config sent with a later start request. -/
def cfgNew : GoMicConfig := ⟨16000, 2, 2, 1⟩

/-- Outcome of one iteration of the capture read loop
(`StartAudioStream`). -/
inductive LoopResult where
  | stopped : LoopResult
  | readFailed : LoopResult
  | emitted : List Nat → LoopResult
deriving DecidableEq

/-- One iteration of the goroutine loop in `StartAudioStream`
(`daemon/audio.go` lines 45-61): a fired stop signal returns; a failed
`io.ReadFull` logs and returns; otherwise the window is framed with the
requested config and sent. -/
def loopIter (stopSignaled : Bool) (readResult : Option (List Nat))
    (cfg : GoMicConfig) : LoopResult :=
  if stopSignaled then .stopped
  else
    match readResult with
    | none => .readFailed
    | some buf => .emitted (wavChunk buf cfg.sampleRate cfg.channels cfg.bytesPerSample)

/-- Effect of the capture goroutine's exit on the daemon-global state.  On
either exit path (`stopChan` fired, or read error: `log.Println(...)`;
`return`, `daemon/audio.go` lines 48-55) the goroutine body assigns no
package-level variable — `audioSession`, `currentConfig`, `micState` and
`micError` live in the connection-handler file and are never touched by the
loop — so the exit leaves the daemon state unchanged. -/
def goroutineExitEffect (s : DaemonState) (_r : LoopResult) : DaemonState := s

/-- The fixed native invocation of the capture subprocess
(`StartAudioStream`): `arecord -D hw:0,0 -f S16_LE -c 1 -r 48000 -t raw`.
These constants appear only in the argv; chunk production never reads
them. -/
def arecordArgs : List String :=
  ["-D", "hw:0,0", "-f", "S16_LE", "-c", "1", "-r", "48000", "-t", "raw"]

/-- The read-window size of `StartAudioStream`:
`make([]byte, int(float64(cfg.SampleRate)*cfg.SecondsPerChunk)*cfg.BytesPerSample)`.
Go's `int(...)` conversion truncates toward zero, which is the floor for
the nonnegative values the daemon is operated with; the float64 product is
idealised as an exact rational. -/
def bufSize (cfg : GoMicConfig) : Nat :=
  (⌊(cfg.sampleRate : ℚ) * cfg.secondsPerChunk⌋).toNat * cfg.bytesPerSample

/-- The chunk the daemon session emits for one read window
(`StartAudioStream` line 56): the window framed with the requested config
`cfg.SampleRate / cfg.Channels / cfg.BytesPerSample`. -/
def daemonChunk (cfg : GoMicConfig) (buf : List Nat) : List Nat :=
  wavChunk buf cfg.sampleRate cfg.channels cfg.bytesPerSample

/-- The Float32-to-Int16 conversion of `AudioMic.handleFloat32Chunk`
(`src/audioMic.ts` line 195):
`Math.max(-32768, Math.min(32767, Math.floor(x * 32767)))`.  Samples are
modelled as exact rationals; on the dyadic inputs used below the source's
float64 arithmetic is exact. -/
def jsToInt16 (x : ℚ) : ℤ := max (-32768) (min 32767 ⌊x * 32767⌋)

/-- The conversion as the claim words it: scale by the full 16-bit range and
take the nearest integer, clamped (`round` is round-half-up nearest). -/
def nearestToInt16 (x : ℚ) : ℤ := max (-32768) (min 32767 (round (x * 32767)))

/-- PCM sample data after conversion: 2-byte signed integers or 4-byte
floats. -/
inductive PcmData where
  | int16 : List ℤ → PcmData
  | float32 : List ℚ → PcmData

/-- The conversion step of `handleFloat32Chunk`: for `bytesPerSample === 2`
every sample is converted by `jsToInt16`; otherwise the float samples are
copied through unchanged. -/
def convertSamples (buf : List ℚ) (bytesPerSample : Nat) : PcmData :=
  if bytesPerSample = 2 then .int16 (buf.map jsToInt16) else .float32 buf

/-- The clamped-floor scaling that the code actually implements, written in
the amended claim's terms: floor of x * 32767, clamped to
[-32768, 32767]. -/
def clampedFloorSpec (x : ℚ) : ℤ :=
  if ⌊x * 32767⌋ < -32768 then -32768
  else if 32767 < ⌊x * 32767⌋ then 32767
  else ⌊x * 32767⌋

/-- Events an `AudioWebSocket` instance can experience: its public method
calls, the socket callbacks it installed (deliverable only while the
corresponding socket handle is current), and the firing of its reconnect
timer. -/
inductive AwsEvent where
  | connect : AwsEvent
  | onopen : AwsEvent
  | onclose : AwsEvent
  | onerror : AwsEvent
  | onBinary : Nat → AwsEvent
  | onText : Json → AwsEvent
  | reconnectFire : AwsEvent
  | disconnect : AwsEvent
  | openMic : AwsEvent
  | closeMic : AwsEvent
  | cleanup : AwsEvent

/-- An `AudioWebSocket` instance together with the platform timer pool:
`pendingReconnect` is the list of reconnect timers scheduled via
`window.setTimeout` and not yet fired or cleared, `nextId` the next timer
id (browser timer ids are positive). -/
structure AwsSys where
  st : AwsState
  pendingReconnect : List Nat
  nextId : Nat

/-- `AudioWebSocket.scheduleReconnect` (`src/types.ts` lines 153-160): if a
reconnect timer id is already stored, return; otherwise store the id of a
newly scheduled timer. -/
def awsScheduleReconnect (s : AwsSys) : AwsSys :=
  match s.st.reconnectTimeout with
  | some _ => s
  | none =>
    { st := { s.st with reconnectTimeout := some s.nextId },
      pendingReconnect := s.pendingReconnect ++ [s.nextId],
      nextId := s.nextId + 1 }

/-- Body of `AudioWebSocket.connect`: return if a socket is already OPEN or
CONNECTING, else set status `connecting` and create the socket. -/
def awsConnectBody (s : AwsSys) : AwsSys :=
  match s.st.ws with
  | some _ => s
  | none =>
    { s with st := { s.st with status := Json.str "connecting", ws := some .connecting } }

/-- Body of `AudioWebSocket.disconnect` (`src/types.ts` lines 162-172):
close and null the socket, clear a pending reconnect timer, set status
`disconnected`. -/
def awsDisconnectBody (s : AwsSys) : AwsSys :=
  let s1 : AwsSys := { s with st := { s.st with ws := none } }
  let s2 : AwsSys :=
    match s1.st.reconnectTimeout with
    | some id =>
      { s1 with
          st := { s1.st with reconnectTimeout := none },
          pendingReconnect := s1.pendingReconnect.erase id }
    | none => s1
  { s2 with st := { s2.st with status := Json.str "disconnected" } }

/-- One event step of an `AudioWebSocket` instance, from the handlers in
`connect`, the timer callback in `scheduleReconnect`, and the public
methods `disconnect` / `openMic` / `closeMic` / `cleanup`. -/
def awsStep (s : AwsSys) : AwsEvent → AwsSys
  | .connect => awsConnectBody s
  | .onopen =>
    (match s.st.ws with
      | some .connecting =>
        { s with st := { s.st with ws := some .opened, status := Json.str "connected", error := Json.str "" } }
      | _ => s)
  | .onclose =>
    (match s.st.ws with
      | some _ =>
        awsScheduleReconnect { s with st := { s.st with status := Json.str "disconnected", ws := none } }
      | none => s)
  | .onerror =>
    (match s.st.ws with
      | some _ =>
        awsScheduleReconnect { s with st := { s.st with error := Json.str "WebSocket error", ws := none } }
      | none => s)
  | .onBinary n =>
    (match s.st.ws with
      | some .opened =>
        { s with st := { s.st with audioChunks := s.st.audioChunks + 1, bytesReceived := s.st.bytesReceived + n } }
      | _ => s)
  | .onText msg =>
    (match s.st.ws with
      | some .opened => { s with st := handleStateText s.st msg }
      | _ => s)
  | .reconnectFire =>
    (match s.pendingReconnect with
      | [] => s
      | _id :: rest =>
        let s1 : AwsSys := { s with pendingReconnect := rest, st := { s.st with reconnectTimeout := none } }
        let s2 :=
          match s1.st.ws with
          | some _ => awsDisconnectBody s1
          | none => s1
        awsConnectBody s2)
  | .disconnect => awsDisconnectBody s
  | .openMic =>
    (match s.st.ws with
      | some .opened =>
        { s with st := { s.st with status := Json.str "listening", audioChunks := 0, bytesReceived := 0 } }
      | _ => s)
  | .closeMic =>
    (match s.st.ws with
      | some .opened => { s with st := { s.st with status := Json.str "connected" } }
      | _ => s)
  | .cleanup =>
    awsDisconnectBody
      (match s.st.ws with
        | some .opened => { s with st := { s.st with status := Json.str "connected" } }
        | _ => s)

/-- A freshly constructed `AudioWebSocket`. -/
def awsInit : AwsSys :=
  { st := { ws := none, status := Json.str "disconnected", error := Json.str "",
            audioChunks := 0, bytesReceived := 0, micConfig := none,
            reconnectTimeout := none },
    pendingReconnect := [], nextId := 1 }

/-- The state of an `AudioWebSocket` after a sequence of events from
construction. -/
def awsRun (evs : List AwsEvent) : AwsSys := evs.foldl awsStep awsInit

/-- Timer bookkeeping invariant of an `AudioWebSocket` instance: the stored
timer id and the pending pool agree, and at most one reconnect timer is
pending. -/
def AwsTimerInv (s : AwsSys) : Prop :=
  (s.st.reconnectTimeout = none ∧ s.pendingReconnect = [])
  ∨ ∃ id, s.st.reconnectTimeout = some id ∧ s.pendingReconnect = [id]

/-- Fields of the older `AudioManager` network backend
(`src/utils/index.ts`): socket handle (tagged with a creation generation so
a liveness listener can be tied to the socket it captured), stored reconnect
timer id, `listening` flag, and the mirrored state. -/
structure AmState where
  ws : Option (Nat × WsReady)
  reconnectTimeout : Option Nat
  listening : Bool
  source : String
  status : String
  error : String
  audioChunks : Nat
  bytesReceived : Nat

/-- A liveness (ping-timeout) timer armed by `AudioManager.pingServer`: its
timer id, the generation of the socket whose messages it listens to, and
the captured `pongReceived` flag. -/
structure LiveTimer where
  id : Nat
  gen : Nat
  pong : Bool
deriving DecidableEq

/-- An `AudioManager` instance together with the platform timer pool:
pending reconnect timers and pending liveness timeouts. -/
structure AmSys where
  st : AmState
  pendingReconnect : List Nat
  pendingLive : List LiveTimer
  nextId : Nat
  nextGen : Nat

/-- `AudioManager.scheduleReconnect` (`src/utils/index.ts` lines 377-387):
same guard as the `AudioWebSocket` version. -/
def amScheduleReconnect (s : AmSys) : AmSys :=
  match s.st.reconnectTimeout with
  | some _ => s
  | none =>
    { s with
        st := { s.st with reconnectTimeout := some s.nextId },
        pendingReconnect := s.pendingReconnect ++ [s.nextId],
        nextId := s.nextId + 1 }

/-- Body of `AudioManager.connect`: return unless the source is
`websocket`; return if a socket is OPEN or CONNECTING; else create a fresh
socket (new generation) with status `connecting`. -/
def amConnectBody (s : AmSys) : AmSys :=
  if s.st.source ≠ "websocket" then s
  else
    match s.st.ws with
    | some _ => s
    | none =>
      { s with
          st := { s.st with status := "connecting", ws := some (s.nextGen, .connecting) },
          nextGen := s.nextGen + 1 }

/-- Body of `AudioManager.disconnect` (`src/utils/index.ts` lines 457-469):
close and null the socket, clear a pending reconnect timer, set status
`disconnected`, then `reset()` (clear error and counters).  Pending
liveness timeouts are untouched — `pingServer` never stores its timer
handle. -/
def amDisconnectBody (s : AmSys) : AmSys :=
  let s1 : AmSys := { s with st := { s.st with ws := none } }
  let s2 : AmSys :=
    match s1.st.reconnectTimeout with
    | some id =>
      { s1 with
          st := { s1.st with reconnectTimeout := none },
          pendingReconnect := s1.pendingReconnect.erase id }
    | none => s1
  { s2 with
      st := { s2.st with status := "disconnected", error := "", audioChunks := 0, bytesReceived := 0 } }

/-- Body of `AudioManager.pingServer`: when the socket is OPEN, attach a
message listener and arm a 2-second timeout whose handle is a local of the
promise executor (never stored on the instance). -/
def amPingBody (s : AmSys) : AmSys :=
  match s.st.ws with
  | some (g, .opened) =>
    { s with pendingLive := s.pendingLive ++ [⟨s.nextId, g, false⟩], nextId := s.nextId + 1 }
  | _ => s

/-- Any frame arriving on the socket of generation `gen` marks every
liveness listener captured on that socket as satisfied (`pongReceived =
true`). -/
def setPongs (gen : Nat) (l : List LiveTimer) : List LiveTimer :=
  l.map (fun t => if t.gen = gen then { t with pong := true } else t)

/-- Events an `AudioManager` instance can experience. -/
inductive AmEvent where
  | setSource : String → AmEvent
  | connect : AmEvent
  | onopen : AmEvent
  | onclose : AmEvent
  | onerror : AmEvent
  | onBinary : Nat → AmEvent
  | onTextFrame : AmEvent
  | reconnectFire : AmEvent
  | startListening : AmEvent
  | stopListening : AmEvent
  | pingSend : AmEvent
  | liveFire : AmEvent
  | disconnect : AmEvent

/-- One event step of an `AudioManager` instance, from `connect`'s
handlers, `scheduleReconnect`'s timer callback, `pingServer`'s message
listener and timeout callback, and the public methods. -/
def amStep (s : AmSys) : AmEvent → AmSys
  | .setSource src => { s with st := { s.st with source := src } }
  | .connect => amConnectBody s
  | .onopen =>
    (match s.st.ws with
      | some (g, .connecting) =>
        { s with st := { s.st with ws := some (g, .opened), status := "connected", error := "" } }
      | _ => s)
  | .onclose =>
    (match s.st.ws with
      | some _ => amScheduleReconnect { s with st := { s.st with status := "disconnected", ws := none } }
      | none => s)
  | .onerror =>
    (match s.st.ws with
      | some _ => amScheduleReconnect { s with st := { s.st with error := "WebSocket error", ws := none } }
      | none => s)
  | .onBinary n =>
    (match s.st.ws with
      | some (g, .opened) =>
        let s1 : AmSys := { s with pendingLive := setPongs g s.pendingLive }
        if s1.st.source = "websocket" then
          { s1 with st := { s1.st with audioChunks := s1.st.audioChunks + 1, bytesReceived := s1.st.bytesReceived + n } }
        else s1
      | _ => s)
  | .onTextFrame =>
    (match s.st.ws with
      | some (g, .opened) => { s with pendingLive := setPongs g s.pendingLive }
      | _ => s)
  | .reconnectFire =>
    (match s.pendingReconnect with
      | [] => s
      | _id :: rest =>
        let s1 : AmSys := { s with pendingReconnect := rest, st := { s.st with reconnectTimeout := none } }
        let s2 :=
          match s1.st.ws with
          | some _ => amDisconnectBody s1
          | none => s1
        amConnectBody s2)
  | .startListening =>
    if s.st.source ≠ "websocket" then s
    else
      let s1 :=
        match s.st.ws with
        | some (_, .opened) =>
          { s with st := { s.st with listening := true, status := "listening", audioChunks := 0, bytesReceived := 0 } }
        | _ => s
      amPingBody s1
  | .stopListening =>
    if s.st.source ≠ "websocket" then s
    else
      (match s.st.ws with
        | some (_, .opened) => { s with st := { s.st with listening := false, status := "connected" } }
        | _ => { s with st := { s.st with status := "disconnected" } })
  | .pingSend => amPingBody s
  | .liveFire =>
    (match s.pendingLive with
      | [] => s
      | t :: rest =>
        let s1 : AmSys := { s with pendingLive := rest }
        if t.pong then s1 else amConnectBody (amDisconnectBody s1))
  | .disconnect => amDisconnectBody s

/-- A freshly constructed `AudioManager` (module-level singleton). -/
def amInit : AmSys :=
  { st := { ws := none, reconnectTimeout := none, listening := false, source := "websocket",
            status := "disconnected", error := "", audioChunks := 0, bytesReceived := 0 },
    pendingReconnect := [], pendingLive := [], nextId := 1, nextGen := 1 }

/-- The state of an `AudioManager` after a sequence of events from
construction. -/
def amRun (evs : List AmEvent) : AmSys := evs.foldl amStep amInit

/-- Timer bookkeeping invariant of an `AudioManager` instance: stored
reconnect-timer id and pending pool agree. -/
def AmTimerInv (s : AmSys) : Prop :=
  (s.st.reconnectTimeout = none ∧ s.pendingReconnect = [])
  ∨ ∃ id, s.st.reconnectTimeout = some id ∧ s.pendingReconnect = [id]

/-- Observable state of an `AudioMic` instance (`src/audioMic.ts`): the
`AudioManagerState` fields the claims are about. -/
structure MicState where
  status : String
  error : String
  audioChunks : Nat
  bytesReceived : Nat

/-- Events of an `AudioMic` instance, at whole-operation granularity:
`initCall` is `initialize()`; `openSuccess` is an `openMic()` call whose
acquisition path (AudioWorklet, ScriptProcessor or MediaRecorder fallback)
succeeded — it passes through `connecting` and ends `listening` without
touching the counters; `openFail` ends in the error state; `chunk b` is one
delivery through `handleFloat32Chunk` / `ondataavailable` producing a
`b`-byte framed chunk. -/
inductive MicEvent where
  | initCall : MicEvent
  | openSuccess : MicEvent
  | openFail : String → MicEvent
  | chunk : Nat → MicEvent
  | closeMic : MicEvent
  | cleanup : MicEvent

/-- One event step of an `AudioMic` instance, from the `setState` calls in
`initialize` / `openMic` / `handleFloat32Chunk` / `closeMic` / `cleanup`.
No path of `openMic` writes `audioChunks` or `bytesReceived`. -/
def micStep (s : MicState) : MicEvent → MicState
  | .initCall => { s with status := "connected", error := "" }
  | .openSuccess => { s with status := "listening", error := "" }
  | .openFail msg => { s with status := "error", error := msg }
  | .chunk b => { s with audioChunks := s.audioChunks + 1, bytesReceived := s.bytesReceived + b }
  | .closeMic => { s with status := "connected" }
  | .cleanup => { s with status := "connected" }

/-- A freshly constructed `AudioMic`. -/
def micInit : MicState :=
  { status := "disconnected", error := "", audioChunks := 0, bytesReceived := 0 }

/-- The state of an `AudioMic` after a sequence of events from
construction. -/
def micRun (evs : List MicEvent) : MicState := evs.foldl micStep micInit

/-- A network backend that is connected with the socket open and has
already counted 5 chunks / 500 bytes, with no timers pending. -/
def awsBusyConnected : AwsSys :=
  { st := { ws := some WsReady.opened, status := Json.str "connected", error := Json.str "",
            audioChunks := 5, bytesReceived := 500, micConfig := none,
            reconnectTimeout := none },
    pendingReconnect := [], nextId := 1 }

/-- The local framer's buffer, flattened to one list of bytes (the append
structure of `makeWavChunk` normalised away). -/
theorem makeWavChunk_flat (pcm : List Nat) (sr ch bps : Nat) (fmt : SampleFormat) :
    makeWavChunk pcm sr ch bps fmt =
      82 :: 73 :: 70 :: 70 ::
      ((36 + pcm.length) % 256) :: ((36 + pcm.length) / 256 % 256) ::
        ((36 + pcm.length) / 65536 % 256) :: ((36 + pcm.length) / 16777216 % 256) ::
      87 :: 65 :: 86 :: 69 ::
      102 :: 109 :: 116 :: 32 ::
      16 :: 0 :: 0 :: 0 ::
      (formatTag fmt % 256) :: (formatTag fmt / 256 % 256) ::
      (ch % 256) :: (ch / 256 % 256) ::
      (sr % 256) :: (sr / 256 % 256) :: (sr / 65536 % 256) :: (sr / 16777216 % 256) ::
      (sr * ch * bps % 256) :: (sr * ch * bps / 256 % 256) ::
        (sr * ch * bps / 65536 % 256) :: (sr * ch * bps / 16777216 % 256) ::
      (ch * bps % 256) :: (ch * bps / 256 % 256) ::
      (bps * 8 % 256) :: (bps * 8 / 256 % 256) ::
      100 :: 97 :: 116 :: 97 ::
      (pcm.length % 256) :: (pcm.length / 256 % 256) ::
        (pcm.length / 65536 % 256) :: (pcm.length / 16777216 % 256) ::
      pcm := by
  simp only [makeWavChunk, u16le, u32le, List.append_assoc, List.cons_append,
    List.nil_append]

/-- The daemon framer's buffer, flattened to one list of bytes. -/
theorem wavChunk_flat (pcm : List Nat) (sr ch bps : Nat) :
    wavChunk pcm sr ch bps =
      82 :: 73 :: 70 :: 70 ::
      ((36 + pcm.length) % 256) :: ((36 + pcm.length) / 256 % 256) ::
        ((36 + pcm.length) / 65536 % 256) :: ((36 + pcm.length) / 16777216 % 256) ::
      87 :: 65 :: 86 :: 69 ::
      102 :: 109 :: 116 :: 32 ::
      16 :: 0 :: 0 :: 0 ::
      1 :: 0 ::
      (ch % 256) :: (ch / 256 % 256) ::
      (sr % 256) :: (sr / 256 % 256) :: (sr / 65536 % 256) :: (sr / 16777216 % 256) ::
      (sr * ch * bps % 256) :: (sr * ch * bps / 256 % 256) ::
        (sr * ch * bps / 65536 % 256) :: (sr * ch * bps / 16777216 % 256) ::
      (ch * bps % 256) :: (ch * bps / 256 % 256) ::
      (bps * 8 % 256) :: (bps * 8 / 256 % 256) ::
      100 :: 97 :: 116 :: 97 ::
      (pcm.length % 256) :: (pcm.length / 256 % 256) ::
        (pcm.length / 65536 % 256) :: (pcm.length / 16777216 % 256) ::
      pcm := by
  simp only [wavChunk, u16le, u32le, List.append_assoc, List.cons_append,
    List.nil_append]

/-- C1: for every PCM payload of length L and all parameters, the local
framer's output is exactly 44 + L bytes; "RIFF" is at offset 0, the 32-bit
little-endian value 36+L at 4, "WAVE" at 8, "fmt " at 12, u32 16 at 16, the
format tag (1 = int, 3 = float) at 20, u16 channels at 22, u32 sampleRate at
24, u32 sampleRate*channels*bytesPerSample at 28, u16
channels*bytesPerSample at 32, u16 bytesPerSample*8 at 34, "data" at 36,
u32 L at 40, and the payload verbatim from offset 44 (multi-byte fields
decode to the value reduced mod 2^16 / 2^32, exactly the truncation the
DataView setters perform). -/
theorem C1_wav_framer_layout (pcm : List Nat) (sampleRate channels bytesPerSample : Nat)
    (fmt : SampleFormat) :
    (makeWavChunk pcm sampleRate channels bytesPerSample fmt).length = 44 + pcm.length
    ∧ (makeWavChunk pcm sampleRate channels bytesPerSample fmt).take 4 = [82, 73, 70, 70]
    ∧ readU32 (makeWavChunk pcm sampleRate channels bytesPerSample fmt) 4
      = (36 + pcm.length) % 4294967296
    ∧ ((makeWavChunk pcm sampleRate channels bytesPerSample fmt).drop 8).take 4
      = [87, 65, 86, 69]
    ∧ ((makeWavChunk pcm sampleRate channels bytesPerSample fmt).drop 12).take 4
      = [102, 109, 116, 32]
    ∧ readU32 (makeWavChunk pcm sampleRate channels bytesPerSample fmt) 16 = 16
    ∧ readU16 (makeWavChunk pcm sampleRate channels bytesPerSample fmt) 20 = formatTag fmt
    ∧ readU16 (makeWavChunk pcm sampleRate channels bytesPerSample fmt) 22
      = channels % 65536
    ∧ readU32 (makeWavChunk pcm sampleRate channels bytesPerSample fmt) 24
      = sampleRate % 4294967296
    ∧ readU32 (makeWavChunk pcm sampleRate channels bytesPerSample fmt) 28
      = sampleRate * channels * bytesPerSample % 4294967296
    ∧ readU16 (makeWavChunk pcm sampleRate channels bytesPerSample fmt) 32
      = channels * bytesPerSample % 65536
    ∧ readU16 (makeWavChunk pcm sampleRate channels bytesPerSample fmt) 34
      = bytesPerSample * 8 % 65536
    ∧ ((makeWavChunk pcm sampleRate channels bytesPerSample fmt).drop 36).take 4
      = [100, 97, 116, 97]
    ∧ readU32 (makeWavChunk pcm sampleRate channels bytesPerSample fmt) 40
      = pcm.length % 4294967296
    ∧ (makeWavChunk pcm sampleRate channels bytesPerSample fmt).drop 44 = pcm := by
  rw [makeWavChunk_flat]
  refine ⟨?_, rfl, ?_, rfl, rfl, rfl, ?_, ?_, ?_, ?_, ?_, ?_, rfl, ?_, rfl⟩
  · simp only [List.length_cons]
    omega
  · show (36 + pcm.length) % 256 + 256 * ((36 + pcm.length) / 256 % 256)
        + 65536 * ((36 + pcm.length) / 65536 % 256)
        + 16777216 * ((36 + pcm.length) / 16777216 % 256)
      = (36 + pcm.length) % 4294967296
    omega
  · show formatTag fmt % 256 + 256 * (formatTag fmt / 256 % 256) = formatTag fmt
    cases fmt <;> rfl
  · show channels % 256 + 256 * (channels / 256 % 256) = channels % 65536
    omega
  · show sampleRate % 256 + 256 * (sampleRate / 256 % 256)
        + 65536 * (sampleRate / 65536 % 256) + 16777216 * (sampleRate / 16777216 % 256)
      = sampleRate % 4294967296
    omega
  · show sampleRate * channels * bytesPerSample % 256
        + 256 * (sampleRate * channels * bytesPerSample / 256 % 256)
        + 65536 * (sampleRate * channels * bytesPerSample / 65536 % 256)
        + 16777216 * (sampleRate * channels * bytesPerSample / 16777216 % 256)
      = sampleRate * channels * bytesPerSample % 4294967296
    omega
  · show channels * bytesPerSample % 256 + 256 * (channels * bytesPerSample / 256 % 256)
      = channels * bytesPerSample % 65536
    omega
  · show bytesPerSample * 8 % 256 + 256 * (bytesPerSample * 8 / 256 % 256)
      = bytesPerSample * 8 % 65536
    omega
  · show pcm.length % 256 + 256 * (pcm.length / 256 % 256)
        + 65536 * (pcm.length / 65536 % 256) + 16777216 * (pcm.length / 16777216 % 256)
      = pcm.length % 4294967296
    omega

/-- C4 counterexample: for the 4-byte floating format the two framers do not
produce identical output — at a concrete input the local framer writes
format tag 3 at offset 20 while the daemon framer writes 1. -/
theorem C4_counterexample_float_tag_differs :
    makeWavChunk [] 48000 1 4 SampleFormat.float32 ≠ wavChunk [] 48000 1 4 := by
  decide

/-- C4 amended: for the integer sample format the two framers produce
byte-for-byte identical output; for the 4-byte floating format the outputs
agree everywhere except the format-tag field at offsets 20-21, where the
local framer emits 3 and the daemon framer emits 1. -/
theorem C4_amended_framers_agree_except_float_tag (pcm : List Nat)
    (sampleRate channels bytesPerSample : Nat) :
    makeWavChunk pcm sampleRate channels bytesPerSample SampleFormat.int16
      = wavChunk pcm sampleRate channels bytesPerSample
    ∧ makeWavChunk pcm sampleRate channels bytesPerSample SampleFormat.float32
      = (wavChunk pcm sampleRate channels bytesPerSample).take 20 ++ [3, 0]
        ++ (wavChunk pcm sampleRate channels bytesPerSample).drop 22 := by
  rw [makeWavChunk_flat, makeWavChunk_flat, wavChunk_flat]
  exact ⟨rfl, rfl⟩

/-- C2 (code bug): a state message actually produced by the daemon carries
lower-case keys `state` / `config` / `error`, but the client reads the
capitalised `payload.State` / `payload.Error` / `payload.Config`, so the
message passes the guard yet changes nothing: the local status stays
"connected" instead of becoming the carried "listening", and the carried
config is never translated into the local config. -/
theorem C2_code_bug_daemon_state_not_mirrored :
    isMicStateMsg (daemonStateMsg "listening" ⟨16000, 1, 2, 1⟩ "") = true
    ∧ handleStateText wsConnectedState (daemonStateMsg "listening" ⟨16000, 1, 2, 1⟩ "")
      = wsConnectedState
    ∧ wsConnectedState.status = Json.str "connected" :=
  ⟨rfl, rfl, rfl⟩

/-- C3 (code bug): a `mic-listen` carrying a parseable config payload while
a session is active leaves the session handle untouched but overwrites
`currentConfig` with the carried config, because the source stores the
payload before testing `audioSession == nil` — contradicting the claim (and
the discipline the `mic-config` case itself enforces). -/
theorem C3_code_bug_listen_overwrites_active_config :
    handleMicListen ⟨some 1, cfgOld, "listening", ""⟩ (some (some cfgNew)) (some 2)
      = ⟨some 1, cfgNew, "listening", ""⟩
    ∧ cfgNew ≠ cfgOld :=
  ⟨rfl, by decide⟩

/-- C5 (code bug): when the subprocess stream fails mid-session, the read
loop does end, but the daemon state is left exactly as it was: `micState`
stays "listening" (no error transition is broadcast), `audioSession` stays
set, and a subsequent explicit `mic-listen` is a no-op rather than a fresh
start — the session is a zombie until an explicit `mic-stop`. -/
theorem C5_code_bug_read_failure_not_surfaced :
    loopIter false none cfgOld = LoopResult.readFailed
    ∧ goroutineExitEffect ⟨some 7, cfgOld, "listening", ""⟩ LoopResult.readFailed
      = ⟨some 7, cfgOld, "listening", ""⟩
    ∧ handleMicListen ⟨some 7, cfgOld, "listening", ""⟩ none (some 9)
      = ⟨some 7, cfgOld, "listening", ""⟩
    ∧ handleMicListen (handleMicStop ⟨some 7, cfgOld, "listening", ""⟩) none (some 9)
      = ⟨some 9, cfgOld, "listening", ""⟩ :=
  ⟨rfl, rfl, rfl, rfl⟩

/-- C7: every chunk the daemon loop emits is the requested-config framing of
the read window — the channel count, sample rate and bits-per-sample header
fields decode to the requested config's values (not to the subprocess's
native 1-channel / 48000 Hz / 16-bit format, unless the config happens to
equal them), and the read window is sampleRate x secondsPerChunk x
bytesPerSample bytes whenever sampleRate x secondsPerChunk is the whole
number n. -/
theorem C7_daemon_chunk_fields_from_requested_config (cfg : GoMicConfig) (buf : List Nat)
    (n : Nat) (hn : (cfg.sampleRate : ℚ) * cfg.secondsPerChunk = (n : ℚ)) :
    loopIter false (some buf) cfg = LoopResult.emitted (daemonChunk cfg buf)
    ∧ readU16 (daemonChunk cfg buf) 22 = cfg.channels % 65536
    ∧ readU32 (daemonChunk cfg buf) 24 = cfg.sampleRate % 4294967296
    ∧ readU16 (daemonChunk cfg buf) 34 = cfg.bytesPerSample * 8 % 65536
    ∧ bufSize cfg = n * cfg.bytesPerSample := by
  refine ⟨rfl, ?_, ?_, ?_, ?_⟩
  · rw [daemonChunk, wavChunk_flat]
    show cfg.channels % 256 + 256 * (cfg.channels / 256 % 256) = cfg.channels % 65536
    omega
  · rw [daemonChunk, wavChunk_flat]
    show cfg.sampleRate % 256 + 256 * (cfg.sampleRate / 256 % 256)
        + 65536 * (cfg.sampleRate / 65536 % 256)
        + 16777216 * (cfg.sampleRate / 16777216 % 256)
      = cfg.sampleRate % 4294967296
    omega
  · rw [daemonChunk, wavChunk_flat]
    show cfg.bytesPerSample * 8 % 256 + 256 * (cfg.bytesPerSample * 8 / 256 % 256)
      = cfg.bytesPerSample * 8 % 65536
    omega
  · rw [bufSize, hn, Int.floor_natCast]
    simp

/-- Witness for C7 at the spec's own scenario config (16000 Hz, 1 channel,
2 bytes per sample, 1 second per chunk): the header fields decode to the
requested values and the read window is 32000 bytes. -/
theorem C7_daemon_chunk_fields_witness :
    loopIter false (some []) (⟨16000, 1, 2, 1⟩ : GoMicConfig)
      = LoopResult.emitted (daemonChunk ⟨16000, 1, 2, 1⟩ [])
    ∧ readU16 (daemonChunk ⟨16000, 1, 2, 1⟩ []) 22 = 1 % 65536
    ∧ readU32 (daemonChunk ⟨16000, 1, 2, 1⟩ []) 24 = 16000 % 4294967296
    ∧ readU16 (daemonChunk ⟨16000, 1, 2, 1⟩ []) 34 = 2 * 8 % 65536
    ∧ bufSize ⟨16000, 1, 2, 1⟩ = 16000 * 2 :=
  C7_daemon_chunk_fields_from_requested_config ⟨16000, 1, 2, 1⟩ [] 16000
    (mul_one ((16000 : Nat) : ℚ))

/-- The code's conversion and the clamped-floor description agree on every
sample. -/
theorem jsToInt16_eq_clampedFloorSpec (x : ℚ) : jsToInt16 x = clampedFloorSpec x := by
  rw [jsToInt16, clampedFloorSpec, max_def, min_def]
  split_ifs <;> omega

/-- C8 counterexample: at the exactly-representable sample x = 1/4 the code
produces 8191 (floor of 8191.75) while clamped round-toward-nearest scaling
produces 8192 — the conversion is not round-toward-nearest. -/
theorem C8_counterexample_floor_not_nearest :
    jsToInt16 (1/4) = 8191 ∧ nearestToInt16 (1/4) = 8192 := by
  constructor
  · have h : ⌊((1/4 : ℚ) * 32767)⌋ = 8191 := by
      rw [Int.floor_eq_iff]
      norm_num
    rw [jsToInt16, h]
    norm_num
  · have h : round ((1/4 : ℚ) * 32767) = 8192 := by
      rw [round_eq, Int.floor_eq_iff]
      norm_num
    rw [nearestToInt16, h]
    norm_num

/-- C8 amended: for bytesPerSample = 4 the floating samples pass through
unchanged; for bytesPerSample = 2 every sample is converted by clamped
floor (round toward minus infinity) scaling by 32767, and every produced
value lies in [-32768, 32767]. -/
theorem C8_amended_clamped_floor_conversion :
    (∀ buf : List ℚ, convertSamples buf 4 = PcmData.float32 buf)
    ∧ (∀ buf : List ℚ, convertSamples buf 2 = PcmData.int16 (buf.map clampedFloorSpec))
    ∧ (∀ x : ℚ, -32768 ≤ jsToInt16 x ∧ jsToInt16 x ≤ 32767) := by
  refine ⟨fun buf => rfl, fun buf => ?_, fun x => ?_⟩
  · have h : jsToInt16 = clampedFloorSpec := funext jsToInt16_eq_clampedFloorSpec
    rw [convertSamples, if_pos rfl, h]
  · rw [jsToInt16, max_def, min_def]
    constructor <;> (split_ifs <;> omega)

/-- A predicate preserved by every step holds after any fold of steps. -/
theorem foldl_preserve {σ α : Type} (P : σ → Prop) (f : σ → α → σ)
    (hf : ∀ s a, P s → P (f s a)) :
    ∀ (l : List α) (s : σ), P s → P (l.foldl f s) := by
  intro l
  induction l with
  | nil => intro s hs; exact hs
  | cons a l ih => intro s hs; exact ih (f s a) (hf s a hs)

/-- The timer invariant only depends on the two timer fields. -/
theorem AwsTimerInv_congr {s t : AwsSys}
    (h1 : t.st.reconnectTimeout = s.st.reconnectTimeout)
    (h2 : t.pendingReconnect = s.pendingReconnect)
    (h : AwsTimerInv s) : AwsTimerInv t := by
  rcases h with ⟨a, b⟩ | ⟨id, a, b⟩
  · exact Or.inl ⟨h1.trans a, h2.trans b⟩
  · exact Or.inr ⟨id, h1.trans a, h2.trans b⟩

/-- Unfolding `scheduleReconnect` when no timer is stored. -/
theorem awsScheduleReconnect_none (s : AwsSys) (h : s.st.reconnectTimeout = none) :
    awsScheduleReconnect s =
      { st := { s.st with reconnectTimeout := some s.nextId },
        pendingReconnect := s.pendingReconnect ++ [s.nextId], nextId := s.nextId + 1 } := by
  rw [awsScheduleReconnect, h]

/-- Unfolding `scheduleReconnect` when a timer is already stored: no-op. -/
theorem awsScheduleReconnect_some (s : AwsSys) (id : Nat)
    (h : s.st.reconnectTimeout = some id) : awsScheduleReconnect s = s := by
  rw [awsScheduleReconnect, h]

/-- `connect` touches neither timer field. -/
theorem awsConnectBody_timers (s : AwsSys) :
    (awsConnectBody s).st.reconnectTimeout = s.st.reconnectTimeout
    ∧ (awsConnectBody s).pendingReconnect = s.pendingReconnect := by
  rw [awsConnectBody]
  cases s.st.ws <;> exact ⟨rfl, rfl⟩

/-- Scheduling preserves the timer invariant. -/
theorem awsScheduleReconnect_inv (s : AwsSys) (h : AwsTimerInv s) :
    AwsTimerInv (awsScheduleReconnect s) := by
  rcases h with ⟨h1, h2⟩ | ⟨id, h1, h2⟩
  · rw [awsScheduleReconnect_none s h1]
    exact Or.inr ⟨s.nextId, rfl, by rw [h2, List.nil_append]⟩
  · rw [awsScheduleReconnect_some s id h1]
    exact Or.inr ⟨id, h1, h2⟩

/-- After `disconnect` no reconnect timer is stored or pending. -/
theorem awsDisconnectBody_clears (s : AwsSys) (h : AwsTimerInv s) :
    (awsDisconnectBody s).st.reconnectTimeout = none
    ∧ (awsDisconnectBody s).pendingReconnect = [] := by
  rcases h with ⟨h1, h2⟩ | ⟨id, h1, h2⟩
  · constructor <;> simp only [awsDisconnectBody, h1, h2]
  · constructor <;> simp only [awsDisconnectBody, h1, h2, List.erase_cons_head]

/-- Every event preserves the timer invariant. -/
theorem awsStep_inv (s : AwsSys) (e : AwsEvent) (h : AwsTimerInv s) :
    AwsTimerInv (awsStep s e) := by
  cases e with
  | connect =>
    exact AwsTimerInv_congr (awsConnectBody_timers s).1 (awsConnectBody_timers s).2 h
  | onopen =>
    cases hw : s.st.ws with
    | none => simp only [awsStep, hw]; exact h
    | some r =>
      cases r with
      | connecting => simp only [awsStep, hw]; exact AwsTimerInv_congr rfl rfl h
      | opened => simp only [awsStep, hw]; exact h
  | onclose =>
    cases hw : s.st.ws with
    | none => simp only [awsStep, hw]; exact h
    | some r =>
      simp only [awsStep, hw]
      exact awsScheduleReconnect_inv _ (AwsTimerInv_congr rfl rfl h)
  | onerror =>
    cases hw : s.st.ws with
    | none => simp only [awsStep, hw]; exact h
    | some r =>
      simp only [awsStep, hw]
      exact awsScheduleReconnect_inv _ (AwsTimerInv_congr rfl rfl h)
  | onBinary n =>
    cases hw : s.st.ws with
    | none => simp only [awsStep, hw]; exact h
    | some r =>
      cases r with
      | connecting => simp only [awsStep, hw]; exact h
      | opened => simp only [awsStep, hw]; exact AwsTimerInv_congr rfl rfl h
  | onText msg =>
    cases hw : s.st.ws with
    | none => simp only [awsStep, hw]; exact h
    | some r =>
      cases r with
      | connecting => simp only [awsStep, hw]; exact h
      | opened =>
        simp only [awsStep, hw]
        have hA : (handleStateText s.st msg).reconnectTimeout = s.st.reconnectTimeout := by
          rw [handleStateText]
          split
          · rfl
          · rfl
        exact AwsTimerInv_congr hA rfl h
  | reconnectFire =>
    cases hp : s.pendingReconnect with
    | nil => simp only [awsStep, hp]; exact h
    | cons id rest =>
      rcases h with ⟨h1, h2⟩ | ⟨id0, h1, h2⟩
      · rw [hp] at h2; cases h2
      · rw [hp] at h2
        injection h2 with h3 h4
        subst h4
        simp only [awsStep, hp]
        refine AwsTimerInv_congr (awsConnectBody_timers _).1 (awsConnectBody_timers _).2 ?_
        cases hw : s.st.ws with
        | none => simp only [hw]; exact Or.inl ⟨rfl, rfl⟩
        | some r =>
          simp only [hw]
          exact Or.inl (awsDisconnectBody_clears _ (Or.inl ⟨rfl, rfl⟩))
  | disconnect =>
    exact Or.inl (awsDisconnectBody_clears s h)
  | openMic =>
    cases hw : s.st.ws with
    | none => simp only [awsStep, hw]; exact h
    | some r =>
      cases r with
      | connecting => simp only [awsStep, hw]; exact h
      | opened => simp only [awsStep, hw]; exact AwsTimerInv_congr rfl rfl h
  | closeMic =>
    cases hw : s.st.ws with
    | none => simp only [awsStep, hw]; exact h
    | some r =>
      cases r with
      | connecting => simp only [awsStep, hw]; exact h
      | opened => simp only [awsStep, hw]; exact AwsTimerInv_congr rfl rfl h
  | cleanup =>
    cases hw : s.st.ws with
    | none =>
      simp only [awsStep, hw]
      exact Or.inl (awsDisconnectBody_clears _ h)
    | some r =>
      cases r with
      | connecting =>
        simp only [awsStep, hw]
        exact Or.inl (awsDisconnectBody_clears _ h)
      | opened =>
        simp only [awsStep, hw]
        exact Or.inl (awsDisconnectBody_clears _ (AwsTimerInv_congr rfl rfl h))

/-- Every reachable `AudioWebSocket` state satisfies the timer invariant. -/
theorem awsRun_inv (evs : List AwsEvent) : AwsTimerInv (awsRun evs) :=
  foldl_preserve AwsTimerInv awsStep awsStep_inv evs awsInit (Or.inl ⟨rfl, rfl⟩)

/-- The `AudioManager` timer invariant only depends on the two reconnect
fields. -/
theorem AmTimerInv_congr {s t : AmSys}
    (h1 : t.st.reconnectTimeout = s.st.reconnectTimeout)
    (h2 : t.pendingReconnect = s.pendingReconnect)
    (h : AmTimerInv s) : AmTimerInv t := by
  rcases h with ⟨a, b⟩ | ⟨id, a, b⟩
  · exact Or.inl ⟨h1.trans a, h2.trans b⟩
  · exact Or.inr ⟨id, h1.trans a, h2.trans b⟩

/-- Unfolding `AudioManager.scheduleReconnect` when no timer is stored. -/
theorem amScheduleReconnect_none (s : AmSys) (h : s.st.reconnectTimeout = none) :
    amScheduleReconnect s =
      { s with
          st := { s.st with reconnectTimeout := some s.nextId },
          pendingReconnect := s.pendingReconnect ++ [s.nextId],
          nextId := s.nextId + 1 } := by
  rw [amScheduleReconnect, h]

/-- Unfolding `AudioManager.scheduleReconnect` when a timer is stored:
no-op. -/
theorem amScheduleReconnect_some (s : AmSys) (id : Nat)
    (h : s.st.reconnectTimeout = some id) : amScheduleReconnect s = s := by
  rw [amScheduleReconnect, h]

/-- `AudioManager.connect` touches neither reconnect-timer field. -/
theorem amConnectBody_timers (s : AmSys) :
    (amConnectBody s).st.reconnectTimeout = s.st.reconnectTimeout
    ∧ (amConnectBody s).pendingReconnect = s.pendingReconnect := by
  rw [amConnectBody]
  split
  · exact ⟨rfl, rfl⟩
  · cases s.st.ws <;> exact ⟨rfl, rfl⟩

/-- `AudioManager.pingServer` touches neither reconnect-timer field. -/
theorem amPingBody_timers (s : AmSys) :
    (amPingBody s).st.reconnectTimeout = s.st.reconnectTimeout
    ∧ (amPingBody s).pendingReconnect = s.pendingReconnect := by
  rw [amPingBody]
  cases hw : s.st.ws with
  | none => exact ⟨rfl, rfl⟩
  | some p =>
    cases p with
    | mk g r => cases r <;> exact ⟨rfl, rfl⟩

/-- `AudioManager.scheduleReconnect` preserves the timer invariant. -/
theorem amScheduleReconnect_inv (s : AmSys) (h : AmTimerInv s) :
    AmTimerInv (amScheduleReconnect s) := by
  rcases h with ⟨h1, h2⟩ | ⟨id, h1, h2⟩
  · rw [amScheduleReconnect_none s h1]
    exact Or.inr ⟨s.nextId, rfl, by rw [h2, List.nil_append]⟩
  · rw [amScheduleReconnect_some s id h1]
    exact Or.inr ⟨id, h1, h2⟩

/-- After `AudioManager.disconnect` no reconnect timer is stored or
pending. -/
theorem amDisconnectBody_clears (s : AmSys) (h : AmTimerInv s) :
    (amDisconnectBody s).st.reconnectTimeout = none
    ∧ (amDisconnectBody s).pendingReconnect = [] := by
  rcases h with ⟨h1, h2⟩ | ⟨id, h1, h2⟩
  · constructor <;> simp only [amDisconnectBody, h1, h2]
  · constructor <;> simp only [amDisconnectBody, h1, h2, List.erase_cons_head]

/-- Every `AudioManager` event preserves the timer invariant. -/
theorem amStep_inv (s : AmSys) (e : AmEvent) (h : AmTimerInv s) :
    AmTimerInv (amStep s e) := by
  cases e with
  | setSource src => exact AmTimerInv_congr rfl rfl h
  | connect =>
    exact AmTimerInv_congr (amConnectBody_timers s).1 (amConnectBody_timers s).2 h
  | onopen =>
    cases hw : s.st.ws with
    | none => simp only [amStep, hw]; exact h
    | some p =>
      cases p with
      | mk g r =>
        cases r with
        | connecting => simp only [amStep, hw]; exact AmTimerInv_congr rfl rfl h
        | opened => simp only [amStep, hw]; exact h
  | onclose =>
    cases hw : s.st.ws with
    | none => simp only [amStep, hw]; exact h
    | some p =>
      simp only [amStep, hw]
      exact amScheduleReconnect_inv _ (AmTimerInv_congr rfl rfl h)
  | onerror =>
    cases hw : s.st.ws with
    | none => simp only [amStep, hw]; exact h
    | some p =>
      simp only [amStep, hw]
      exact amScheduleReconnect_inv _ (AmTimerInv_congr rfl rfl h)
  | onBinary n =>
    cases hw : s.st.ws with
    | none => simp only [amStep, hw]; exact h
    | some p =>
      cases p with
      | mk g r =>
        cases r with
        | connecting => simp only [amStep, hw]; exact h
        | opened =>
          simp only [amStep, hw]
          split
          · exact AmTimerInv_congr rfl rfl h
          · exact AmTimerInv_congr rfl rfl h
  | onTextFrame =>
    cases hw : s.st.ws with
    | none => simp only [amStep, hw]; exact h
    | some p =>
      cases p with
      | mk g r =>
        cases r with
        | connecting => simp only [amStep, hw]; exact h
        | opened => simp only [amStep, hw]; exact AmTimerInv_congr rfl rfl h
  | reconnectFire =>
    cases hp : s.pendingReconnect with
    | nil => simp only [amStep, hp]; exact h
    | cons id rest =>
      rcases h with ⟨h1, h2⟩ | ⟨id0, h1, h2⟩
      · rw [hp] at h2; cases h2
      · rw [hp] at h2
        injection h2 with h3 h4
        subst h4
        simp only [amStep, hp]
        refine AmTimerInv_congr (amConnectBody_timers _).1 (amConnectBody_timers _).2 ?_
        cases hw : s.st.ws with
        | none => simp only [hw]; exact Or.inl ⟨rfl, rfl⟩
        | some p =>
          simp only [hw]
          exact Or.inl (amDisconnectBody_clears _ (Or.inl ⟨rfl, rfl⟩))
  | startListening =>
    simp only [amStep]
    split
    · exact h
    · refine AmTimerInv_congr (amPingBody_timers _).1 (amPingBody_timers _).2 ?_
      cases hw : s.st.ws with
      | none => simp only [hw]; exact h
      | some p =>
        cases p with
        | mk g r =>
          cases r with
          | connecting => simp only [hw]; exact h
          | opened => simp only [hw]; exact AmTimerInv_congr rfl rfl h
  | stopListening =>
    simp only [amStep]
    split
    · exact h
    · cases hw : s.st.ws with
      | none => simp only [hw]; exact AmTimerInv_congr rfl rfl h
      | some p =>
        cases p with
        | mk g r =>
          cases r with
          | connecting => simp only [hw]; exact AmTimerInv_congr rfl rfl h
          | opened => simp only [hw]; exact AmTimerInv_congr rfl rfl h
  | pingSend =>
    exact AmTimerInv_congr (amPingBody_timers s).1 (amPingBody_timers s).2 h
  | liveFire =>
    cases hp : s.pendingLive with
    | nil => simp only [amStep, hp]; exact h
    | cons t rest =>
      simp only [amStep, hp]
      split
      · exact AmTimerInv_congr rfl rfl h
      · refine AmTimerInv_congr (amConnectBody_timers _).1 (amConnectBody_timers _).2 ?_
        exact Or.inl (amDisconnectBody_clears _ (AmTimerInv_congr rfl rfl h))
  | disconnect =>
    exact Or.inl (amDisconnectBody_clears s h)

/-- Every reachable `AudioManager` state satisfies the timer invariant. -/
theorem amRun_inv (evs : List AmEvent) : AmTimerInv (amRun evs) :=
  foldl_preserve AmTimerInv amStep amStep_inv evs amInit (Or.inl ⟨rfl, rfl⟩)

/-- `AudioWebSocket.scheduleReconnect` does not change `audioChunks`. -/
theorem awsScheduleReconnect_chunks (s : AwsSys) :
    (awsScheduleReconnect s).st.audioChunks = s.st.audioChunks := by
  rw [awsScheduleReconnect]
  cases s.st.reconnectTimeout <;> rfl

/-- `AudioWebSocket.scheduleReconnect` does not change `bytesReceived`. -/
theorem awsScheduleReconnect_bytes (s : AwsSys) :
    (awsScheduleReconnect s).st.bytesReceived = s.st.bytesReceived := by
  rw [awsScheduleReconnect]
  cases s.st.reconnectTimeout <;> rfl

/-- `AudioWebSocket.connect` does not change `audioChunks`. -/
theorem awsConnectBody_chunks (s : AwsSys) :
    (awsConnectBody s).st.audioChunks = s.st.audioChunks := by
  rw [awsConnectBody]
  cases s.st.ws <;> rfl

/-- `AudioWebSocket.connect` does not change `bytesReceived`. -/
theorem awsConnectBody_bytes (s : AwsSys) :
    (awsConnectBody s).st.bytesReceived = s.st.bytesReceived := by
  rw [awsConnectBody]
  cases s.st.ws <;> rfl

/-- `AudioWebSocket.disconnect` does not change `audioChunks`. -/
theorem awsDisconnectBody_chunks (s : AwsSys) :
    (awsDisconnectBody s).st.audioChunks = s.st.audioChunks := by
  cases h : s.st.reconnectTimeout <;> simp only [awsDisconnectBody, h]

/-- `AudioWebSocket.disconnect` does not change `bytesReceived`. -/
theorem awsDisconnectBody_bytes (s : AwsSys) :
    (awsDisconnectBody s).st.bytesReceived = s.st.bytesReceived := by
  cases h : s.st.reconnectTimeout <;> simp only [awsDisconnectBody, h]

/-- The text-message branch does not change `audioChunks`. -/
theorem handleStateText_chunks (st : AwsState) (msg : Json) :
    (handleStateText st msg).audioChunks = st.audioChunks := by
  rw [handleStateText]
  split
  · rfl
  · rfl

/-- The text-message branch does not change `bytesReceived`. -/
theorem handleStateText_bytes (st : AwsState) (msg : Json) :
    (handleStateText st msg).bytesReceived = st.bytesReceived := by
  rw [handleStateText]
  split
  · rfl
  · rfl

/-- C6 counterexample: on the local backend a listening period (re)starts
with the counters still holding their previous values — after one chunk of
100 bytes, closing the mic and successfully reopening it, the backend is
`listening` again with `audioChunks = 1` and `bytesReceived = 100`, not
zero.  `AudioMic.openMic` never resets the counters. -/
theorem C6_counterexample_local_counters_not_reset :
    (micRun [.initCall, .openSuccess, .chunk 100, .closeMic, .openSuccess]).status
      = "listening"
    ∧ (micRun [.initCall, .openSuccess, .chunk 100, .closeMic, .openSuccess]).audioChunks = 1
    ∧ (micRun [.initCall, .openSuccess, .chunk 100, .closeMic, .openSuccess]).bytesReceived
      = 100 :=
  ⟨rfl, rfl, rfl⟩

/-- C6 amended: on the network backend the counters are reset to zero
exactly by a successful start-listening — every `openMic` with the socket
open zeroes both counters (second conjunct), and every transition that is
not such a start leaves them monotonically non-decreasing (third conjunct,
whose right disjunct can only hold for `openMic`); on the local backend the
counters are never reset at all — they are monotonically non-decreasing
across every transition, including listening restarts. -/
theorem C6_amended_counter_discipline :
    (∀ (s : MicState) (e : MicEvent),
      s.audioChunks ≤ (micStep s e).audioChunks
      ∧ s.bytesReceived ≤ (micStep s e).bytesReceived)
    ∧ (∀ s : AwsSys, s.st.ws = some WsReady.opened →
      (awsStep s AwsEvent.openMic).st.audioChunks = 0
      ∧ (awsStep s AwsEvent.openMic).st.bytesReceived = 0)
    ∧ (∀ (s : AwsSys) (e : AwsEvent),
      (s.st.audioChunks ≤ (awsStep s e).st.audioChunks
        ∧ s.st.bytesReceived ≤ (awsStep s e).st.bytesReceived)
      ∨ (e = AwsEvent.openMic ∧ (awsStep s e).st.audioChunks = 0
        ∧ (awsStep s e).st.bytesReceived = 0)) := by
  refine ⟨?_, ?_, ?_⟩
  · intro s e
    cases e <;> constructor <;> simp only [micStep] <;> omega
  · intro s hw
    constructor <;> simp only [awsStep, hw]
  · intro s e
    cases e with
    | connect =>
      exact Or.inl ⟨le_of_eq (awsConnectBody_chunks s).symm,
        le_of_eq (awsConnectBody_bytes s).symm⟩
    | onopen =>
      cases hw : s.st.ws with
      | none => simp only [awsStep, hw]; exact Or.inl ⟨le_refl _, le_refl _⟩
      | some r =>
        cases r <;> simp only [awsStep, hw] <;> exact Or.inl ⟨le_refl _, le_refl _⟩
    | onclose =>
      cases hw : s.st.ws with
      | none => simp only [awsStep, hw]; exact Or.inl ⟨le_refl _, le_refl _⟩
      | some r =>
        simp only [awsStep, hw, awsScheduleReconnect_chunks, awsScheduleReconnect_bytes]
        exact Or.inl ⟨le_refl _, le_refl _⟩
    | onerror =>
      cases hw : s.st.ws with
      | none => simp only [awsStep, hw]; exact Or.inl ⟨le_refl _, le_refl _⟩
      | some r =>
        simp only [awsStep, hw, awsScheduleReconnect_chunks, awsScheduleReconnect_bytes]
        exact Or.inl ⟨le_refl _, le_refl _⟩
    | onBinary n =>
      cases hw : s.st.ws with
      | none => simp only [awsStep, hw]; exact Or.inl ⟨le_refl _, le_refl _⟩
      | some r =>
        cases r with
        | connecting => simp only [awsStep, hw]; exact Or.inl ⟨le_refl _, le_refl _⟩
        | opened =>
          simp only [awsStep, hw]
          exact Or.inl ⟨Nat.le_succ _, Nat.le_add_right _ _⟩
    | onText msg =>
      cases hw : s.st.ws with
      | none => simp only [awsStep, hw]; exact Or.inl ⟨le_refl _, le_refl _⟩
      | some r =>
        cases r with
        | connecting => simp only [awsStep, hw]; exact Or.inl ⟨le_refl _, le_refl _⟩
        | opened =>
          simp only [awsStep, hw, handleStateText_chunks, handleStateText_bytes]
          exact Or.inl ⟨le_refl _, le_refl _⟩
    | reconnectFire =>
      cases hp : s.pendingReconnect with
      | nil => simp only [awsStep, hp]; exact Or.inl ⟨le_refl _, le_refl _⟩
      | cons id rest =>
        simp only [awsStep, hp, awsConnectBody_chunks, awsConnectBody_bytes]
        cases hw : s.st.ws <;>
          simp only [hw, awsDisconnectBody_chunks, awsDisconnectBody_bytes] <;>
          exact Or.inl ⟨le_refl _, le_refl _⟩
    | disconnect =>
      exact Or.inl ⟨le_of_eq (awsDisconnectBody_chunks s).symm,
        le_of_eq (awsDisconnectBody_bytes s).symm⟩
    | openMic =>
      cases hw : s.st.ws with
      | none => simp only [awsStep, hw]; exact Or.inl ⟨le_refl _, le_refl _⟩
      | some r =>
        cases r with
        | connecting => simp only [awsStep, hw]; exact Or.inl ⟨le_refl _, le_refl _⟩
        | opened => refine Or.inr ⟨rfl, ?_, ?_⟩ <;> simp only [awsStep, hw]
    | closeMic =>
      cases hw : s.st.ws with
      | none => simp only [awsStep, hw]; exact Or.inl ⟨le_refl _, le_refl _⟩
      | some r =>
        cases r <;> simp only [awsStep, hw] <;> exact Or.inl ⟨le_refl _, le_refl _⟩
    | cleanup =>
      simp only [awsStep, awsDisconnectBody_chunks, awsDisconnectBody_bytes]
      cases hw : s.st.ws with
      | none => simp only [hw]; exact Or.inl ⟨le_refl _, le_refl _⟩
      | some r =>
        cases r <;> simp only [hw] <;> exact Or.inl ⟨le_refl _, le_refl _⟩

/-- Witness for C6 amended: a network backend that is connected and has
already counted 5 chunks / 500 bytes has both counters zeroed by a
successful start-listening. -/
theorem C6_amended_counter_discipline_witness :
    (awsStep awsBusyConnected AwsEvent.openMic).st.audioChunks = 0
    ∧ (awsStep awsBusyConnected AwsEvent.openMic).st.bytesReceived = 0 :=
  C6_amended_counter_discipline.2.1 awsBusyConnected rfl

/-- C9 counterexample: the trace connect, open, pingServer, disconnect()
leaves the backend disconnected with the liveness (ping-timeout) timer
still pending — `disconnect()` cannot cancel it because `pingServer` never
stores its handle — and when that timer then fires (no pong was recorded)
its callback runs `disconnect(); connect()`, moving the instance to
`connecting` without any new user connection attempt. -/
theorem C9_counterexample_liveness_timer_survives_disconnect :
    (amRun [.connect, .onopen, .pingSend, .disconnect]).st.status = "disconnected"
    ∧ (amRun [.connect, .onopen, .pingSend, .disconnect]).pendingLive = [⟨1, 1, false⟩]
    ∧ (amStep (amRun [.connect, .onopen, .pingSend, .disconnect]) .liveFire).st.status
      = "connecting" :=
  ⟨rfl, rfl, rfl⟩

/-- C9 amended: after `disconnect()` returns, no reconnect timer is pending
for the instance (both network-backend implementations clear it before
returning); a liveness timeout armed by `pingServer` is however not
cancelled and may still fire afterwards. -/
theorem C9_amended_disconnect_clears_reconnect_timers :
    (∀ evs : List AwsEvent, (awsStep (awsRun evs) AwsEvent.disconnect).pendingReconnect = [])
    ∧ (∀ evs : List AmEvent, (amStep (amRun evs) AmEvent.disconnect).pendingReconnect = []) := by
  constructor
  · intro evs
    exact (awsDisconnectBody_clears (awsRun evs) (awsRun_inv evs)).2
  · intro evs
    exact (amDisconnectBody_clears (amRun evs) (amRun_inv evs)).2

/-- C10: in every reachable state of either network-backend implementation
at most one reconnect timer is pending, and a schedule request issued when
a reconnect timer is already stored changes nothing at all (scheduling is
idempotent: the pending timer, its id and the whole state are unchanged). -/
theorem C10_at_most_one_pending_reconnect_timer :
    (∀ evs : List AwsEvent, (awsRun evs).pendingReconnect.length ≤ 1)
    ∧ (∀ s : AwsSys, awsScheduleReconnect (awsScheduleReconnect s) = awsScheduleReconnect s)
    ∧ (∀ evs : List AmEvent, (amRun evs).pendingReconnect.length ≤ 1)
    ∧ (∀ s : AmSys, amScheduleReconnect (amScheduleReconnect s) = amScheduleReconnect s) := by
  refine ⟨?_, ?_, ?_, ?_⟩
  · intro evs
    rcases awsRun_inv evs with ⟨_, b⟩ | ⟨id, _, b⟩ <;> rw [b] <;> simp
  · intro s
    cases h : s.st.reconnectTimeout with
    | some id => rw [awsScheduleReconnect_some s id h, awsScheduleReconnect_some s id h]
    | none =>
      rw [awsScheduleReconnect_none s h]
      exact awsScheduleReconnect_some _ s.nextId rfl
  · intro evs
    rcases amRun_inv evs with ⟨_, b⟩ | ⟨id, _, b⟩ <;> rw [b] <;> simp
  · intro s
    cases h : s.st.reconnectTimeout with
    | some id => rw [amScheduleReconnect_some s id h, amScheduleReconnect_some s id h]
    | none =>
      rw [amScheduleReconnect_none s h]
      exact amScheduleReconnect_some _ s.nextId rfl

end DeskthingMic
